import Mathlib

/-
Verification of the PoliSim particle network animation (src/script.js,
class NetworkAnimation).  The JavaScript is shallowly embedded over ℝ:
each method of the class becomes a Lean function on an explicit state,
the mutable particle object becomes a record threaded through the
sequential mutations of updateParticle, and the nested drawing loops of
animate become list computations whose membership characterises which
lines are drawn in a frame.
-/

namespace PoliSim

/-- A particle, as pushed by createParticles (src/script.js lines 44-51):
fields in the order of the object literal. -/
structure Particle where
  x : ℝ
  y : ℝ
  size : ℝ
  speedX : ℝ
  speedY : ℝ
  opacity : ℝ

instance : Inhabited Particle := ⟨⟨0, 0, 0, 0, 0, 0⟩⟩

/-- The shared cursor state `this.mouse = { x: null, y: null, radius: 150 }`
(line 12); x and y are null (none) when the pointer is absent. -/
structure Mouse where
  x : Option ℝ
  y : Option ℝ
  radius : ℝ

/-- The size range `particleSize: { min: 2, max: 4 }` (line 16). -/
structure SizeRange where
  min : ℝ
  max : ℝ

/-- The numeric fields of `this.settings` (lines 14-22); the colour strings
are represented only through the base opacities 0.15 and 0.3 that the
drawing code substitutes into them. -/
structure Settings where
  particleCount : ℕ
  particleSize : SizeRange
  particleSpeed : ℝ
  connectionDistance : ℝ

/-- The configured settings object (lines 14-22). -/
def settings : Settings :=
  { particleCount := 80
    particleSize := { min := 2, max := 4 }
    particleSpeed := 0.3
    connectionDistance := 150 }

/-- The initial mouse state (line 12). -/
def initMouse : Mouse := { x := none, y := none, radius := 150 }

/-- Math.atan2(y, x): the argument of the complex number x + y·i, with
atan2(0, 0) = 0, exactly as Complex.arg. -/
noncomputable def atan2 (y x : ℝ) : ℝ := Complex.arg ⟨x, y⟩

/-- One particle built from six successive Math.random() draws, in the
order the object literal evaluates them (lines 44-51): x, y, size,
speedX, speedY, opacity. -/
noncomputable def mkParticle (w h r1 r2 r3 r4 r5 r6 : ℝ) : Particle :=
  { x := r1 * w
    y := r2 * h
    size := r3 * (settings.particleSize.max - settings.particleSize.min) +
      settings.particleSize.min
    speedX := (r4 - 0.5) * settings.particleSpeed
    speedY := (r5 - 0.5) * settings.particleSpeed
    opacity := r6 * 0.5 + 0.3 }

/-- createParticles (lines 39-53): discards the old array and pushes
particleCount fresh particles; `rand` is the stream of Math.random()
results, consumed six per particle. -/
noncomputable def createParticles (w h : ℝ) (rand : ℕ → ℝ) : List Particle :=
  (List.range settings.particleCount).map (fun i =>
    mkParticle w h (rand (6 * i)) (rand (6 * i + 1)) (rand (6 * i + 2))
      (rand (6 * i + 3)) (rand (6 * i + 4)) (rand (6 * i + 5)))

/-- The distance from a particle to the cursor at (mx, my), as computed in
updateParticle (lines 97-99) and in the mouse-connection check
(lines 133-135). -/
noncomputable def particleMouseDist (p : Particle) (mx my : ℝ) : ℝ :=
  Real.sqrt ((p.x - mx) * (p.x - mx) + (p.y - my) * (p.y - my))

/-- The `Bounce off edges` step for x (lines 84-86): whenever x is outside
[0, width] the stored speedX is negated in place. -/
noncomputable def reflectX (w : ℝ) (p : Particle) : Particle :=
  if p.x < 0 ∨ p.x > w then { p with speedX := -p.speedX } else p

/-- The `Bounce off edges` step for y (lines 87-89). -/
noncomputable def reflectY (h : ℝ) (p : Particle) : Particle :=
  if p.y < 0 ∨ p.y > h then { p with speedY := -p.speedY } else p

/-- The `Update position` step (lines 92-93), applied after the bounce,
so it adds the possibly negated speeds. -/
def advance (p : Particle) : Particle :=
  { p with x := p.x + p.speedX, y := p.y + p.speedY }

/-- The `Mouse interaction - gentle repulsion` block (lines 96-107): a
no-op when either cursor coordinate is null; otherwise, when the distance
to the cursor is strictly below the radius, the position is displaced by
(cos angle, sin angle) · force · 0.5 with force = (radius - distance)/radius
and angle = atan2(dy, dx). -/
noncomputable def repel (m : Mouse) (p : Particle) : Particle :=
  match m.x, m.y with
  | some mx, some my =>
    let dx := p.x - mx
    let dy := p.y - my
    let distance := Real.sqrt (dx * dx + dy * dy)
    if distance < m.radius then
      let force := (m.radius - distance) / m.radius
      let angle := atan2 dy dx
      { p with x := p.x + Real.cos angle * force * 0.5
               y := p.y + Real.sin angle * force * 0.5 }
    else p
  | _, _ => p

/-- updateParticle (lines 82-108): bounce in x, bounce in y, advance by
the (possibly negated) velocity, then the cursor repulsion on the advanced
position. -/
noncomputable def updateParticle (w h : ℝ) (m : Mouse) (p : Particle) : Particle :=
  repel m (advance (reflectY h (reflectX w p)))

/-- Number.prototype.toFixed(2) over exact reals: the integer n minimising
|n/100 - x|, ties to the larger n, i.e. ⌊100·x + 1/2⌋ / 100.  This is the
rounding drawConnection and drawMouseConnection apply when substituting
the computed alpha into the colour string. -/
noncomputable def toFixed2 (x : ℝ) : ℝ := (⌊x * 100 + 1 / 2⌋ : ℝ) / 100

/-- The alpha drawConnection (lines 62-70) writes into the stroke colour:
(0.15 * (1 - distance / connectionDistance)).toFixed(2). -/
noncomputable def drawConnectionOpacity (distance : ℝ) : ℝ :=
  toFixed2 (0.15 * (1 - distance / settings.connectionDistance))

/-- The alpha drawMouseConnection (lines 72-80) writes into the stroke
colour: (0.3 * (1 - distance / radius)).toFixed(2). -/
noncomputable def drawMouseConnectionOpacity (radius distance : ℝ) : ℝ :=
  toFixed2 (0.3 * (1 - distance / radius))

/-- The particle indices for which animate (lines 131-140) draws a line to
the cursor this frame: the check runs inside the per-particle loop and is
skipped entirely when either cursor coordinate is null. -/
noncomputable def drawnMouseConnections (ps : List Particle) (m : Mouse) : List ℕ :=
  (List.range ps.length).filter (fun i =>
    match m.x, m.y with
    | some mx, some my =>
      decide (particleMouseDist (ps.getD i default) mx my < m.radius)
    | _, _ => false)

/-- The mutable state owned by the NetworkAnimation instance: canvas
dimensions, particle array, and shared mouse value. -/
structure AnimState where
  width : ℝ
  height : ℝ
  particles : List Particle
  mouse : Mouse

/-- The events that mutate the state (setupEventListeners, lines 146-161,
plus the per-frame callback): a window resize carries the new viewport
size and the fresh randomness used to regenerate the particles. -/
inductive Event where
  | resize (w h : ℝ) (rand : ℕ → ℝ)
  | frame
  | mousemove (mx my : ℝ)
  | mouseout

/-- The state transition of each handler: resize resizes the canvas and
regenerates all particles (lines 147-150); a frame updates every particle
in place (lines 114-117); mousemove stores the pointer coordinates
(lines 152-155); mouseout nulls them (lines 157-160). -/
noncomputable def handleEvent (s : AnimState) : Event → AnimState
  | .resize w h rand =>
    { s with width := w, height := h, particles := createParticles w h rand }
  | .frame =>
    { s with particles := s.particles.map (updateParticle s.width s.height s.mouse) }
  | .mousemove mx my =>
    { s with mouse := { s.mouse with x := some mx, y := some my } }
  | .mouseout =>
    { s with mouse := { s.mouse with x := none, y := none } }

/-- The state right after the constructor ran init (resize +
createParticles) with the initial null mouse. -/
noncomputable def initState (w h : ℝ) (rand : ℕ → ℝ) : AnimState :=
  { width := w, height := h, particles := createParticles w h rand
    mouse := initMouse }

/-- Run a sequence of events from a state. -/
noncomputable def run (s : AnimState) (es : List Event) : AnimState :=
  es.foldl handleEvent s

/-! ### Helper lemmas about the individual update steps -/

theorem reflectX_x (w : ℝ) (p : Particle) : (reflectX w p).x = p.x := by
  unfold reflectX; split <;> rfl

theorem reflectX_y (w : ℝ) (p : Particle) : (reflectX w p).y = p.y := by
  unfold reflectX; split <;> rfl

theorem reflectX_size (w : ℝ) (p : Particle) : (reflectX w p).size = p.size := by
  unfold reflectX; split <;> rfl

theorem reflectX_speedY (w : ℝ) (p : Particle) : (reflectX w p).speedY = p.speedY := by
  unfold reflectX; split <;> rfl

theorem reflectX_opacity (w : ℝ) (p : Particle) : (reflectX w p).opacity = p.opacity := by
  unfold reflectX; split <;> rfl

theorem reflectX_speedX (w : ℝ) (p : Particle) :
    (reflectX w p).speedX = if p.x < 0 ∨ p.x > w then -p.speedX else p.speedX := by
  unfold reflectX; split_ifs <;> rfl

theorem reflectY_x (h : ℝ) (p : Particle) : (reflectY h p).x = p.x := by
  unfold reflectY; split <;> rfl

theorem reflectY_y (h : ℝ) (p : Particle) : (reflectY h p).y = p.y := by
  unfold reflectY; split <;> rfl

theorem reflectY_size (h : ℝ) (p : Particle) : (reflectY h p).size = p.size := by
  unfold reflectY; split <;> rfl

theorem reflectY_speedX (h : ℝ) (p : Particle) : (reflectY h p).speedX = p.speedX := by
  unfold reflectY; split <;> rfl

theorem reflectY_opacity (h : ℝ) (p : Particle) : (reflectY h p).opacity = p.opacity := by
  unfold reflectY; split <;> rfl

theorem reflectY_speedY (h : ℝ) (p : Particle) :
    (reflectY h p).speedY = if p.y < 0 ∨ p.y > h then -p.speedY else p.speedY := by
  unfold reflectY; split_ifs <;> rfl

theorem advance_x (p : Particle) : (advance p).x = p.x + p.speedX := rfl

theorem advance_y (p : Particle) : (advance p).y = p.y + p.speedY := rfl

theorem advance_size (p : Particle) : (advance p).size = p.size := rfl

theorem advance_speedX (p : Particle) : (advance p).speedX = p.speedX := rfl

theorem advance_speedY (p : Particle) : (advance p).speedY = p.speedY := rfl

theorem advance_opacity (p : Particle) : (advance p).opacity = p.opacity := rfl

/-- The repulsion step only ever rewrites the position fields. -/
theorem repel_shape (m : Mouse) (p : Particle) :
    ∃ nx ny, repel m p = { p with x := nx, y := ny } := by
  rcases m with ⟨_ | mx, _ | my, r⟩
  · exact ⟨p.x, p.y, rfl⟩
  · exact ⟨p.x, p.y, rfl⟩
  · exact ⟨p.x, p.y, rfl⟩
  · simp only [repel]
    split
    · exact ⟨_, _, rfl⟩
    · exact ⟨p.x, p.y, rfl⟩

/-- With a null cursor coordinate the repulsion block is skipped. -/
theorem repel_none (m : Mouse) (p : Particle) (hm : m.x = none ∨ m.y = none) :
    repel m p = p := by
  rcases m with ⟨_ | mx, _ | my, r⟩
  · rfl
  · rfl
  · rfl
  · rcases hm with h | h <;> simp_all

/-- Evaluation of the repulsion step when the cursor is present and within
range, phrased through the computed distance d. -/
theorem repel_eval (mx my r : ℝ) (p : Particle) (d : ℝ)
    (hd : Real.sqrt ((p.x - mx) * (p.x - mx) + (p.y - my) * (p.y - my)) = d)
    (hlt : d < r) :
    repel ⟨some mx, some my, r⟩ p =
      { p with
        x := p.x + Real.cos (atan2 (p.y - my) (p.x - mx)) * ((r - d) / r) * 0.5
        y := p.y + Real.sin (atan2 (p.y - my) (p.x - mx)) * ((r - d) / r) * 0.5 } := by
  simp only [repel]
  rw [hd, if_pos hlt]

theorem updateParticle_eq (w h : ℝ) (m : Mouse) (p : Particle) :
    updateParticle w h m p = repel m (advance (reflectY h (reflectX w p))) := rfl

theorem updateParticle_speedX (w h : ℝ) (m : Mouse) (p : Particle) :
    (updateParticle w h m p).speedX =
      if p.x < 0 ∨ p.x > w then -p.speedX else p.speedX := by
  obtain ⟨nx, ny, hr⟩ := repel_shape m (advance (reflectY h (reflectX w p)))
  unfold updateParticle
  rw [hr]
  show (advance (reflectY h (reflectX w p))).speedX = _
  rw [advance_speedX, reflectY_speedX, reflectX_speedX]

theorem updateParticle_speedY (w h : ℝ) (m : Mouse) (p : Particle) :
    (updateParticle w h m p).speedY =
      if p.y < 0 ∨ p.y > h then -p.speedY else p.speedY := by
  obtain ⟨nx, ny, hr⟩ := repel_shape m (advance (reflectY h (reflectX w p)))
  unfold updateParticle
  rw [hr]
  show (advance (reflectY h (reflectX w p))).speedY = _
  rw [advance_speedY, reflectY_speedY, reflectX_y, reflectX_speedY]

theorem updateParticle_size (w h : ℝ) (m : Mouse) (p : Particle) :
    (updateParticle w h m p).size = p.size := by
  obtain ⟨nx, ny, hr⟩ := repel_shape m (advance (reflectY h (reflectX w p)))
  unfold updateParticle
  rw [hr]
  show (advance (reflectY h (reflectX w p))).size = p.size
  rw [advance_size, reflectY_size, reflectX_size]

theorem updateParticle_opacity (w h : ℝ) (m : Mouse) (p : Particle) :
    (updateParticle w h m p).opacity = p.opacity := by
  obtain ⟨nx, ny, hr⟩ := repel_shape m (advance (reflectY h (reflectX w p)))
  unfold updateParticle
  rw [hr]
  show (advance (reflectY h (reflectX w p))).opacity = p.opacity
  rw [advance_opacity, reflectY_opacity, reflectX_opacity]

theorem createParticles_length (w h : ℝ) (rand : ℕ → ℝ) :
    (createParticles w h rand).length = settings.particleCount := by
  simp [createParticles]

/-- Membership in the per-frame cursor-connection list when the cursor is
present. -/
theorem mem_drawnMouseConnections (ps : List Particle) (mx my r : ℝ) (i : ℕ) :
    i ∈ drawnMouseConnections ps ⟨some mx, some my, r⟩ ↔
      i < ps.length ∧ particleMouseDist (ps.getD i default) mx my < r := by
  simp [drawnMouseConnections, List.mem_filter, List.mem_range]

/-- With either cursor coordinate null, no cursor connection is drawn. -/
theorem drawnMouseConnections_none (ps : List Particle) (m : Mouse)
    (hm : m.x = none ∨ m.y = none) :
    drawnMouseConnections ps m = [] := by
  rcases m with ⟨_ | mx, _ | my, r⟩
  · simp [drawnMouseConnections]
  · simp [drawnMouseConnections]
  · simp [drawnMouseConnections]
  · rcases hm with h | h <;> simp_all

/-- The toFixed(2) rounding is monotone. -/
theorem toFixed2_mono {a b : ℝ} (hab : a ≤ b) : toFixed2 a ≤ toFixed2 b := by
  unfold toFixed2
  have h : (⌊a * 100 + 1 / 2⌋ : ℝ) ≤ (⌊b * 100 + 1 / 2⌋ : ℝ) := by
    exact_mod_cast Int.floor_le_floor (by linarith)
  linarith

/-! ### Claim theorems -/

/-- The particle used to refute C3's idempotence clause: outside the left
edge (x = -0.5 < 0) yet already moving back inward (speedX = 0.1 > 0). -/
noncomputable def c3Particle : Particle := ⟨-0.5, 300, 3, 0.1, 0, 0.5⟩

/-- Claim C3 counterexample: a particle that is still outside the x-bounds
but already moving back toward them nevertheless has its speedX sign
flipped again by the update, contradicting the claimed idempotence. -/
theorem C3_counterexample :
    (c3Particle.x < 0 ∧ 0 < c3Particle.speedX) ∧
    (updateParticle 800 600 initMouse c3Particle).speedX = -0.1 ∧
    (updateParticle 800 600 initMouse c3Particle).speedX ≠ c3Particle.speedX := by
  refine ⟨⟨by norm_num [c3Particle], by norm_num [c3Particle]⟩, ?_, ?_⟩ <;>
    rw [updateParticle_speedX] <;> simp only [c3Particle] <;>
    split_ifs with hc
  · norm_num
  · exact absurd (Or.inl (by norm_num)) hc
  · norm_num
  · exact absurd (Or.inl (by norm_num)) hc

/-- Claim C3 (amended): in every per-frame update, speedX is negated
relative to the prior frame iff the prior x-position is outside
[0, surfaceWidth], and symmetrically for y: the sign flip is unconditional
on the direction of motion, so a particle still outside bounds but moving
back toward them has its velocity negated again. -/
theorem C3_edge_reflection (w h : ℝ) (m : Mouse) (p : Particle) :
    ((p.x < 0 ∨ p.x > w) → (updateParticle w h m p).speedX = -p.speedX) ∧
    (¬(p.x < 0 ∨ p.x > w) → (updateParticle w h m p).speedX = p.speedX) ∧
    ((p.y < 0 ∨ p.y > h) → (updateParticle w h m p).speedY = -p.speedY) ∧
    (¬(p.y < 0 ∨ p.y > h) → (updateParticle w h m p).speedY = p.speedY) := by
  rw [updateParticle_speedX, updateParticle_speedY] at *
  refine ⟨fun hc => if_pos hc, fun hc => if_neg hc,
    fun hc => if_pos hc, fun hc => if_neg hc⟩

/-- Witness for C3 (amended), at a particle outside the left edge and
inside the y-bounds. -/
theorem C3_edge_reflection_witness :
    (updateParticle 800 600 initMouse ⟨-0.5, 300, 3, -0.1, 0.2, 0.5⟩).speedX =
      -(-0.1 : ℝ) ∧
    (updateParticle 800 600 initMouse ⟨-0.5, 300, 3, -0.1, 0.2, 0.5⟩).speedY =
      (0.2 : ℝ) :=
  ⟨(C3_edge_reflection 800 600 initMouse _).1 (Or.inl (by norm_num)),
   (C3_edge_reflection 800 600 initMouse _).2.2.2 (by push_neg; norm_num)⟩

/-- Claim C5: with the cursor state absent, the per-frame update of every
particle is exactly edge reflection followed by the velocity advance (the
new position is the old one plus the new, possibly sign-flipped,
velocity), and no particle-cursor connection is drawn. -/
theorem C5_cursor_absent (w h : ℝ) (m : Mouse) (p : Particle)
    (ps : List Particle) (hm : m.x = none ∨ m.y = none) :
    updateParticle w h m p = advance (reflectY h (reflectX w p)) ∧
    (updateParticle w h m p).x = p.x + (updateParticle w h m p).speedX ∧
    (updateParticle w h m p).y = p.y + (updateParticle w h m p).speedY ∧
    drawnMouseConnections ps m = [] := by
  have h1 : updateParticle w h m p = advance (reflectY h (reflectX w p)) := by
    unfold updateParticle
    rw [repel_none m _ hm]
  refine ⟨h1, ?_, ?_, drawnMouseConnections_none ps m hm⟩
  · rw [h1, advance_x, advance_speedX, reflectY_x, reflectX_x]
  · rw [h1, advance_y, advance_speedY, reflectY_y, reflectX_y]

/-- Witness for C5 at a concrete particle with the initial (absent)
mouse. -/
theorem C5_cursor_absent_witness :
    updateParticle 800 600 initMouse ⟨5, 5, 2, 0.1, 0.1, 0.5⟩ =
      advance (reflectY 600 (reflectX 800 ⟨5, 5, 2, 0.1, 0.1, 0.5⟩)) ∧
    (updateParticle 800 600 initMouse ⟨5, 5, 2, 0.1, 0.1, 0.5⟩).x =
      (5 : ℝ) + (updateParticle 800 600 initMouse ⟨5, 5, 2, 0.1, 0.1, 0.5⟩).speedX ∧
    (updateParticle 800 600 initMouse ⟨5, 5, 2, 0.1, 0.1, 0.5⟩).y =
      (5 : ℝ) + (updateParticle 800 600 initMouse ⟨5, 5, 2, 0.1, 0.1, 0.5⟩).speedY ∧
    drawnMouseConnections [⟨5, 5, 2, 0.1, 0.1, 0.5⟩] initMouse = [] :=
  C5_cursor_absent 800 600 initMouse ⟨5, 5, 2, 0.1, 0.1, 0.5⟩
    [⟨5, 5, 2, 0.1, 0.1, 0.5⟩] (Or.inl rfl)

/-- Claim C8: the per-frame update, under any cursor state, leaves the
particle's size and opacity fields unchanged. -/
theorem C8_size_opacity_invariant (w h : ℝ) (m : Mouse) (p : Particle) :
    (updateParticle w h m p).size = p.size ∧
    (updateParticle w h m p).opacity = p.opacity :=
  ⟨updateParticle_size w h m p, updateParticle_opacity w h m p⟩

/-- Claim C9: the per-frame update, under any cursor state, preserves the
absolute value of each velocity component: speeds change only by sign
flips at edge reflection. -/
theorem C9_speed_magnitude_invariant (w h : ℝ) (m : Mouse) (p : Particle) :
    |(updateParticle w h m p).speedX| = |p.speedX| ∧
    |(updateParticle w h m p).speedY| = |p.speedY| := by
  rw [updateParticle_speedX, updateParticle_speedY]
  constructor <;> (split_ifs <;> simp [abs_neg])

/-- Evaluation rule for the toFixed(2) rounding. -/
theorem toFixed2_eq (x : ℝ) (n : ℤ) (h1 : (n : ℝ) ≤ x * 100 + 1 / 2)
    (h2 : x * 100 + 1 / 2 < (n : ℝ) + 1) : toFixed2 x = (n : ℝ) / 100 := by
  unfold toFixed2
  have hfl : ⌊x * 100 + 1 / 2⌋ = n := Int.floor_eq_iff.mpr ⟨h1, h2⟩
  rw [hfl]

/-- Claim C2 counterexample: at distance 101 the rendered stroke opacity is
the toFixed(2)-rounded value 0.05, not 0.15·(1 − 101/150) = 0.049, and it
coincides with the value rendered at distance 100, so the drawn opacity
does not strictly decrease with distance. -/
theorem C2_counterexample :
    drawConnectionOpacity 101 ≠
      0.15 * (1 - 101 / settings.connectionDistance) ∧
    (100 : ℝ) < 101 ∧
    drawConnectionOpacity 100 = drawConnectionOpacity 101 := by
  have e101 : drawConnectionOpacity 101 = 1 / 20 := by
    unfold drawConnectionOpacity
    rw [toFixed2_eq _ 5 (by norm_num [settings]) (by norm_num [settings])]
    norm_num
  have e100 : drawConnectionOpacity 100 = 1 / 20 := by
    unfold drawConnectionOpacity
    rw [toFixed2_eq _ 5 (by norm_num [settings]) (by norm_num [settings])]
    norm_num
  refine ⟨?_, by norm_num, by rw [e100, e101]⟩
  rw [e101]
  norm_num [settings]

/-- Claim C2 (amended): the stroke opacity drawn for a particle-particle
connection at distance d is 0.15·(1 − d/connectionDistance) rounded to two
decimal places by toFixed(2); the unrounded value strictly decreases as d
increases and reaches 0 at the threshold, and the rounded, rendered value
is weakly decreasing and also 0 at the threshold. -/
theorem C2_connection_opacity (d1 d2 : ℝ) (h12 : d1 < d2) :
    drawConnectionOpacity d1 =
      toFixed2 (0.15 * (1 - d1 / settings.connectionDistance)) ∧
    0.15 * (1 - d2 / settings.connectionDistance) <
      0.15 * (1 - d1 / settings.connectionDistance) ∧
    0.15 * (1 - (150 : ℝ) / settings.connectionDistance) = 0 ∧
    drawConnectionOpacity d2 ≤ drawConnectionOpacity d1 ∧
    drawConnectionOpacity 150 = 0 := by
  have h150 : settings.connectionDistance = 150 := rfl
  have hmono : 0.15 * (1 - d2 / settings.connectionDistance) <
      0.15 * (1 - d1 / settings.connectionDistance) := by
    rw [h150]
    have hde : d1 / 150 < d2 / 150 := by linarith
    linarith
  have hzero : drawConnectionOpacity 150 = 0 := by
    unfold drawConnectionOpacity
    rw [toFixed2_eq _ 0 (by norm_num [settings]) (by norm_num [settings])]
    norm_num
  exact ⟨rfl, hmono, by norm_num [settings], toFixed2_mono hmono.le, hzero⟩

/-- Witness for C2 (amended) at the pair of distances 100 < 101. -/
theorem C2_connection_opacity_witness :
    drawConnectionOpacity 100 =
      toFixed2 (0.15 * (1 - 100 / settings.connectionDistance)) ∧
    0.15 * (1 - (101 : ℝ) / settings.connectionDistance) <
      0.15 * (1 - (100 : ℝ) / settings.connectionDistance) ∧
    0.15 * (1 - (150 : ℝ) / settings.connectionDistance) = 0 ∧
    drawConnectionOpacity 101 ≤ drawConnectionOpacity 100 ∧
    drawConnectionOpacity 150 = 0 :=
  C2_connection_opacity 100 101 (by norm_num)

/-- Every event handler preserves the configured particle count. -/
theorem handleEvent_length (s : AnimState) (e : Event)
    (hs : s.particles.length = settings.particleCount) :
    (handleEvent s e).particles.length = settings.particleCount := by
  cases e with
  | resize w h rand => exact createParticles_length w h rand
  | frame => simpa [handleEvent] using hs
  | mousemove mx my => exact hs
  | mouseout => exact hs

theorem run_length (es : List Event) (s : AnimState)
    (hs : s.particles.length = settings.particleCount) :
    (run s es).particles.length = settings.particleCount := by
  induction es generalizing s with
  | nil => exact hs
  | cons e es ih => exact ih _ (handleEvent_length s e hs)

/-- Claim C7: right after initialization, and after any sequence of events
(resizes, each of which regenerates the set, frames, pointer moves and
leaves), the particle list holds exactly the configured count, 80: frames
never add or remove particles. -/
theorem C7_particle_count (w h : ℝ) (rand : ℕ → ℝ) (es : List Event) :
    (run (initState w h rand) es).particles.length = settings.particleCount ∧
    settings.particleCount = 80 :=
  ⟨run_length es _ (createParticles_length w h rand), rfl⟩

/-- Claim C6: every particle produced by createParticles (at
initialization or at any regeneration) has position in [0, w] × [0, h],
size in the configured [2, 4], opacity in [0.3, 0.8] and each velocity
component in [-0.15, 0.15] = [-particleSpeed/2, particleSpeed/2], given
nonnegative surface dimensions and Math.random() results in [0, 1). -/
theorem C6_init_ranges (w h : ℝ) (rand : ℕ → ℝ) (hw : 0 ≤ w) (hh : 0 ≤ h)
    (hr : ∀ n, 0 ≤ rand n ∧ rand n < 1) :
    ∀ p ∈ createParticles w h rand,
      (0 ≤ p.x ∧ p.x ≤ w) ∧ (0 ≤ p.y ∧ p.y ≤ h) ∧
      (2 ≤ p.size ∧ p.size ≤ 4) ∧ (0.3 ≤ p.opacity ∧ p.opacity ≤ 0.8) ∧
      (-0.15 ≤ p.speedX ∧ p.speedX ≤ 0.15) ∧
      (-0.15 ≤ p.speedY ∧ p.speedY ≤ 0.15) := by
  intro p hp
  simp only [createParticles, List.mem_map, List.mem_range] at hp
  obtain ⟨i, -, rfl⟩ := hp
  simp only [mkParticle, settings]
  obtain ⟨h1a, h1b⟩ := hr (6 * i)
  obtain ⟨h2a, h2b⟩ := hr (6 * i + 1)
  obtain ⟨h3a, h3b⟩ := hr (6 * i + 2)
  obtain ⟨h4a, h4b⟩ := hr (6 * i + 3)
  obtain ⟨h5a, h5b⟩ := hr (6 * i + 4)
  obtain ⟨h6a, h6b⟩ := hr (6 * i + 5)
  have hxw : rand (6 * i) * w ≤ w := by
    have := mul_le_mul_of_nonneg_right h1b.le hw
    linarith
  have hyh : rand (6 * i + 1) * h ≤ h := by
    have := mul_le_mul_of_nonneg_right h2b.le hh
    linarith
  refine ⟨⟨mul_nonneg h1a hw, hxw⟩, ⟨mul_nonneg h2a hh, hyh⟩,
    ⟨by linarith, by linarith⟩, ⟨by linarith, by linarith⟩,
    ⟨by linarith, by linarith⟩, ⟨by linarith, by linarith⟩⟩

/-- Witness for C6: the particle generated at index 0 on an 800 × 600
surface with every Math.random() call returning 1/2. -/
theorem C6_init_ranges_witness :
    (0 ≤ (mkParticle 800 600 (1/2) (1/2) (1/2) (1/2) (1/2) (1/2)).x ∧
      (mkParticle 800 600 (1/2) (1/2) (1/2) (1/2) (1/2) (1/2)).x ≤ 800) ∧
    (0 ≤ (mkParticle 800 600 (1/2) (1/2) (1/2) (1/2) (1/2) (1/2)).y ∧
      (mkParticle 800 600 (1/2) (1/2) (1/2) (1/2) (1/2) (1/2)).y ≤ 600) ∧
    (2 ≤ (mkParticle 800 600 (1/2) (1/2) (1/2) (1/2) (1/2) (1/2)).size ∧
      (mkParticle 800 600 (1/2) (1/2) (1/2) (1/2) (1/2) (1/2)).size ≤ 4) ∧
    (0.3 ≤ (mkParticle 800 600 (1/2) (1/2) (1/2) (1/2) (1/2) (1/2)).opacity ∧
      (mkParticle 800 600 (1/2) (1/2) (1/2) (1/2) (1/2) (1/2)).opacity ≤ 0.8) ∧
    (-0.15 ≤ (mkParticle 800 600 (1/2) (1/2) (1/2) (1/2) (1/2) (1/2)).speedX ∧
      (mkParticle 800 600 (1/2) (1/2) (1/2) (1/2) (1/2) (1/2)).speedX ≤ 0.15) ∧
    (-0.15 ≤ (mkParticle 800 600 (1/2) (1/2) (1/2) (1/2) (1/2) (1/2)).speedY ∧
      (mkParticle 800 600 (1/2) (1/2) (1/2) (1/2) (1/2) (1/2)).speedY ≤ 0.15) :=
  C6_init_ranges 800 600 (fun _ => 1/2) (by norm_num) (by norm_num)
    (fun n => by norm_num)
    (mkParticle 800 600 (1/2) (1/2) (1/2) (1/2) (1/2) (1/2))
    (by
      unfold createParticles
      have h0 : (0 : ℕ) ∈ List.range settings.particleCount :=
        List.mem_range.mpr (by norm_num [settings])
      exact List.mem_map_of_mem _ h0)

/-- The C4 scenario particle: resting at the origin. -/
def c4Particle : Particle := ⟨0, 0, 3, 0, 0, 0.5⟩

/-- The C4 cursor: present at (5, 0) with radius 150. -/
def c4Mouse : Mouse := ⟨some 5, some 0, 150⟩

/-- Claim C4: with the cursor at (5, 0), radius 150, and a particle at
(0, 0) after its position advance, the distance is 5 < 150, the update
displaces the particle by ((150 − 5)/150)·0.5 in the negative-x direction
(away from the cursor), and the particle-cursor line at distance 5 is
drawn with stroke opacity 0.3·(1 − 5/150). -/
theorem C4_cursor_scenario :
    (updateParticle 800 600 c4Mouse c4Particle).x = 0 - ((150 - 5) / 150) * 0.5 ∧
    (updateParticle 800 600 c4Mouse c4Particle).x < 0 ∧
    (updateParticle 800 600 c4Mouse c4Particle).y = 0 ∧
    particleMouseDist c4Particle 5 0 = 5 ∧ (5 : ℝ) < 150 ∧
    (0 : ℕ) ∈ drawnMouseConnections [c4Particle] c4Mouse ∧
    drawMouseConnectionOpacity 150 5 = 0.3 * (1 - 5 / 150) := by
  have hq : advance (reflectY 600 (reflectX 800 c4Particle)) = c4Particle := by
    simp only [c4Particle, reflectX, reflectY, advance]
    norm_num
  have hsq : Real.sqrt (((0 : ℝ) - 5) * ((0 : ℝ) - 5) +
      ((0 : ℝ) - 0) * ((0 : ℝ) - 0)) = 5 := by
    rw [show ((0 : ℝ) - 5) * ((0 : ℝ) - 5) + ((0 : ℝ) - 0) * ((0 : ℝ) - 0) =
      5 ^ 2 by norm_num]
    exact Real.sqrt_sq (by norm_num)
  have hd5 : particleMouseDist c4Particle 5 0 = 5 := hsq
  have hrep : repel c4Mouse c4Particle =
      { c4Particle with
        x := c4Particle.x + Real.cos (atan2 (c4Particle.y - 0) (c4Particle.x - 5)) *
          ((150 - 5) / 150) * 0.5
        y := c4Particle.y + Real.sin (atan2 (c4Particle.y - 0) (c4Particle.x - 5)) *
          ((150 - 5) / 150) * 0.5 } :=
    repel_eval 5 0 150 c4Particle 5 hsq (by norm_num)
  have hatan : atan2 ((0 : ℝ) - 0) ((0 : ℝ) - 5) = Real.pi := by
    unfold atan2
    have hc : (⟨(0 : ℝ) - 5, (0 : ℝ) - 0⟩ : ℂ) = ((-5 : ℝ) : ℂ) := by
      apply Complex.ext <;> simp
    rw [hc]
    exact Complex.arg_ofReal_of_neg (by norm_num)
  have hupd : updateParticle 800 600 c4Mouse c4Particle =
      repel c4Mouse c4Particle := by
    rw [updateParticle_eq, hq]
  have hmem : (0 : ℕ) ∈ drawnMouseConnections [c4Particle] c4Mouse := by
    refine (mem_drawnMouseConnections [c4Particle] 5 0 150 0).mpr ⟨by simp, ?_⟩
    show particleMouseDist c4Particle 5 0 < 150
    rw [hd5]
    norm_num
  have hop : drawMouseConnectionOpacity 150 5 = 0.3 * (1 - 5 / 150) := by
    unfold drawMouseConnectionOpacity
    rw [toFixed2_eq _ 29 (by norm_num) (by norm_num)]
    norm_num
  have hx : (updateParticle 800 600 c4Mouse c4Particle).x =
      0 - ((150 - 5) / 150) * 0.5 := by
    rw [hupd, hrep]
    show c4Particle.x + Real.cos (atan2 (c4Particle.y - 0) (c4Particle.x - 5)) *
      ((150 - 5) / 150) * 0.5 = 0 - ((150 - 5) / 150) * 0.5
    simp only [c4Particle]
    rw [hatan, Real.cos_pi]
    ring
  have hy : (updateParticle 800 600 c4Mouse c4Particle).y = 0 := by
    rw [hupd, hrep]
    show c4Particle.y + Real.sin (atan2 (c4Particle.y - 0) (c4Particle.x - 5)) *
      ((150 - 5) / 150) * 0.5 = 0
    simp only [c4Particle]
    rw [hatan, Real.sin_pi]
    ring
  exact ⟨hx, by rw [hx]; norm_num, hy, hd5, by norm_num, hmem, hop⟩

/-- Claim C10: when the advanced particle position coincides exactly with
the present cursor position, the interaction branch is taken (distance
0 < radius), force is maximal (1), atan2(0, 0) = 0 points along the
positive x axis, and the update applies the deterministic displacement
(+0.5, 0) instead of failing or dividing by zero. -/
theorem C10_cursor_coincident (w h r mx my : ℝ) (p : Particle) (hr : 0 < r)
    (hx : (advance (reflectY h (reflectX w p))).x = mx)
    (hy : (advance (reflectY h (reflectX w p))).y = my) :
    (updateParticle w h ⟨some mx, some my, r⟩ p).x =
      (advance (reflectY h (reflectX w p))).x + 0.5 ∧
    (updateParticle w h ⟨some mx, some my, r⟩ p).y =
      (advance (reflectY h (reflectX w p))).y := by
  have hd : Real.sqrt
      (((advance (reflectY h (reflectX w p))).x - mx) *
        ((advance (reflectY h (reflectX w p))).x - mx) +
       ((advance (reflectY h (reflectX w p))).y - my) *
        ((advance (reflectY h (reflectX w p))).y - my)) = 0 := by
    rw [hx, hy]
    simp
  have hrep := repel_eval mx my r (advance (reflectY h (reflectX w p))) 0 hd hr
  have hatan : atan2 ((advance (reflectY h (reflectX w p))).y - my)
      ((advance (reflectY h (reflectX w p))).x - mx) = 0 := by
    rw [hx, hy]
    unfold atan2
    have hc : (⟨mx - mx, my - my⟩ : ℂ) = 0 := by
      apply Complex.ext <;> simp
    rw [hc, Complex.arg_zero]
  constructor
  · rw [updateParticle_eq, hrep]
    show (advance (reflectY h (reflectX w p))).x +
      Real.cos (atan2 ((advance (reflectY h (reflectX w p))).y - my)
        ((advance (reflectY h (reflectX w p))).x - mx)) * ((r - 0) / r) * 0.5 = _
    rw [hatan, Real.cos_zero, sub_zero, div_self (ne_of_gt hr)]
    ring
  · rw [updateParticle_eq, hrep]
    show (advance (reflectY h (reflectX w p))).y +
      Real.sin (atan2 ((advance (reflectY h (reflectX w p))).y - my)
        ((advance (reflectY h (reflectX w p))).x - mx)) * ((r - 0) / r) * 0.5 = _
    rw [hatan, Real.sin_zero]
    ring

/-- Witness for C10: a particle resting at the origin with the cursor set
exactly there. -/
theorem C10_cursor_coincident_witness :
    (updateParticle 800 600 ⟨some 0, some 0, 150⟩ ⟨0, 0, 3, 0, 0, 0.5⟩).x =
      (advance (reflectY 600 (reflectX 800 ⟨0, 0, 3, 0, 0, 0.5⟩))).x + 0.5 ∧
    (updateParticle 800 600 ⟨some 0, some 0, 150⟩ ⟨0, 0, 3, 0, 0, 0.5⟩).y =
      (advance (reflectY 600 (reflectX 800 ⟨0, 0, 3, 0, 0, 0.5⟩))).y :=
  C10_cursor_coincident 800 600 150 0 0 ⟨0, 0, 3, 0, 0, 0.5⟩ (by norm_num)
    (by simp only [reflectX, reflectY, advance]; norm_num)
    (by simp only [reflectX, reflectY, advance]; norm_num)

end PoliSim
